import Mathlib

/-!
Shallow embedding of the support-ticket and notification subsystem of the
`store-back` e-commerce backend, together with proofs about its ticket
lifecycle rules (auto-close, urgent-keyword escalation, reopen-on-reply,
age-based escalation), its notification dispatch error handling, its
connection-registry send, and its notification read-marking.

Machine state (the document store, the socket registry) is passed
explicitly; `Date.now()` / `new Date()` become an explicit `now : Nat`
(milliseconds); JavaScript exceptions and HTTP error responses become
explicit response values carrying the HTTP status code.  The
persistence engine's strict-mode casting and required-path validation
are part of the model: they run before the pre('save') hooks, and for
the message subdocuments the ticket controllers push (text under
`content` instead of the schema's required `message`) they decide the
observable behavior.  The business logic of the controllers, models
and services is translated directly from the source.
-/

namespace StoreBack

/-- Ticket status enum from `src/models/Ticket.js`
(`['Open', 'In Progress', 'Resolved', 'Closed']`). -/
inductive Status where
  | Open
  | InProgress
  | Resolved
  | Closed
deriving DecidableEq, Repr

/-- Ticket priority enum from `src/models/Ticket.js`
(`['Low', 'Medium', 'High', 'Urgent']`). -/
inductive Priority where
  | Low
  | Medium
  | High
  | Urgent
deriving DecidableEq, Repr

/-- Numeric rank of a priority, used to express that a priority is never
lowered (`Low < Medium < High < Urgent`). -/
def priorityRank : Priority → Nat
  | Priority.Low => 0
  | Priority.Medium => 1
  | Priority.High => 2
  | Priority.Urgent => 3

/-- One entry of `TicketSchema.messages`.  `sender` is a user id,
`none` for system messages (`sender: null` in `escalateTicket`);
`message` is the message text; `isAdmin` defaults to `false` and no
code path in the repository sets it explicitly. -/
structure Message where
  sender : Option Nat
  message : String
  isAdmin : Bool
  isSystemMessage : Bool
deriving DecidableEq, Repr

/-- The `paymentDetails` subdocument of `TicketSchema`. -/
structure PaymentDetails where
  d17 : String
  boustaRIB : String
deriving DecidableEq, Repr

/-- A ticket document (`src/models/Ticket.js`).  `resolutionTime` stands
for `metadata.resolutionTime`, the only metadata key the code writes;
`createdAt` is the creation timestamp in milliseconds. -/
structure Ticket where
  order : Nat
  user : Nat
  status : Status
  priority : Priority
  messages : List Message
  assignedStaff : Option Nat
  closedAt : Option Nat
  paymentDetails : Option PaymentDetails
  resolutionTime : Option Nat
  createdAt : Nat
deriving DecidableEq, Repr

/-- ASCII lower-casing of one character, as `String.prototype.toLowerCase`
acts on ASCII. -/
def asciiLower (c : Char) : Char :=
  if 65 ≤ c.toNat ∧ c.toNat ≤ 90 then Char.ofNat (c.toNat + 32) else c

/-- ASCII lower-casing of a string. -/
def asciiLowerStr (s : String) : String :=
  String.mk (s.data.map asciiLower)

/-- `needle` occurs at the head of `hay`. -/
def listStartsWith : List Char → List Char → Bool
  | [], _ => true
  | _ :: _, [] => false
  | a :: as, b :: bs => a == b && listStartsWith as bs

/-- `needle` occurs somewhere in `hay` (`String.prototype.includes`). -/
def listContainsSub (needle : List Char) : List Char → Bool
  | [] => listStartsWith needle []
  | c :: rest => listStartsWith needle (c :: rest) || listContainsSub needle rest

/-- `hay.includes(needle)` on strings. -/
def strIncludes (hay needle : String) : Bool :=
  listContainsSub needle.data hay.data

/-- `msg.message.toLowerCase().includes('urgent') ||
msg.message.toLowerCase().includes('emergency')` from the pre-save hook. -/
def isUrgentMessage (m : Message) : Bool :=
  strIncludes (asciiLowerStr m.message) "urgent"
    || strIncludes (asciiLowerStr m.message) "emergency"

/-- The guard of the auto-close branch of the pre-save hook:
`this.messages.length > 0 && this.messages.every(msg => msg.isAdmin) &&
this.status !== 'Closed'`. -/
def autoCloseCheck (t : Ticket) : Bool :=
  decide (t.messages.length > 0) && t.messages.all (fun m => m.isAdmin)
    && !(t.status == Status.Closed)

/-- The guard of the urgent-escalation branch of the pre-save hook:
`urgentMessages.length > 0 && this.priority !== 'Urgent'`, where
`urgentMessages` filters the messages by the urgent keywords. -/
def urgentCheck (t : Ticket) : Bool :=
  decide ((t.messages.filter isUrgentMessage).length > 0)
    && !(t.priority == Priority.Urgent)

/-- The `TicketSchema.pre('save')` hook of `src/models/Ticket.js`:
first auto-close the ticket when it has messages, every message is
admin-authored and the ticket is not already Closed (also recording
`closedAt` and `metadata.resolutionTime`); then escalate priority to
Urgent when some message contains "urgent" or "emergency"
case-insensitively and priority is not already Urgent. -/
def preSaveHook (now : Nat) (t : Ticket) : Ticket :=
  let t1 :=
    if autoCloseCheck t then
      { t with status := Status.Closed, closedAt := some now,
               resolutionTime := some now }
    else t
  if urgentCheck t1 then
    { t1 with priority := Priority.Urgent }
  else t1

/-- Some message of `t` triggers the urgent-keyword rule. -/
def hasUrgentMessage (t : Ticket) : Bool :=
  t.messages.any isUrgentMessage

theorem filter_urgent_pos_iff (l : List Message) :
    ((l.filter isUrgentMessage).length > 0) = l.any isUrgentMessage := by
  induction l with
  | nil => simp
  | cons m rest ih =>
    by_cases hm : isUrgentMessage m = true
    · simp [List.filter, List.any, hm]
    · simp only [Bool.not_eq_true] at hm
      simp [List.filter, List.any, hm, ih]

/-- The authenticated requester (`req.user`): its id and `isAdmin` flag. -/
structure Actor where
  id : Nat
  isAdmin : Bool
deriving DecidableEq, Repr

/-- An order document, reduced to the fields `createTicket` consults. -/
structure OrderRec where
  id : Nat
  user : Nat
deriving DecidableEq, Repr

/-- A user document, reduced to the fields the ticket controller's
lookups consult (`User.findById`, and the
`User.findOne({ role: 'Senior Support', isActive: true })` query of
`escalateTicket`). -/
structure UserRec where
  id : Nat
  role : String
  isActive : Bool
deriving DecidableEq, Repr

deriving instance DecidableEq for Except

/-- A message subdocument as the ticket controllers push it: exactly
the keys of the JS object literal.  The text is written under the key
`content`, which is not a schema path; the schema's required text path
`message` is never set by any push; `isSystemMessage` (set only by the
escalation note) is likewise not a schema path. -/
structure MessagePush where
  sender : Option Nat
  content : String
  isSystemMessage : Bool
deriving DecidableEq, Repr

/-- The schema paths of a message subdocument as far as required-path
validation is concerned (`sender` and `message` required, `isAdmin`
defaulted). -/
structure CastMessage where
  sender : Option Nat
  message : Option String
  isAdmin : Bool
deriving DecidableEq, Repr

/-- Strict-mode casting of a controller push onto the message schema:
only schema paths survive.  `content` and `isSystemMessage` are
dropped, so `message` stays unset; `isAdmin` takes its default. -/
def castMessagePush (p : MessagePush) : CastMessage :=
  { sender := p.sender, message := none, isAdmin := false }

/-- Required-path validation of a message subdocument: `sender` and
`message` are both required (Ticket.js lines 36-45); only a document
carrying both becomes a stored `Message`. -/
def validateMessage (c : CastMessage) : Except String Message :=
  match c.sender, c.message with
  | some s, some m =>
      Except.ok { sender := some s, message := m, isAdmin := c.isAdmin,
                  isSystemMessage := false }
  | _, _ => Except.error "ValidationError"

/-- Required-path re-validation of an already-stored message when its
ticket is saved again: its `message` is a `String` (hence present), so
only the required `sender` can fail. -/
def validateStoredMessage (m : Message) : Except String Message :=
  match m.sender with
  | some _ => Except.ok m
  | none => Except.error "ValidationError"

/-- Validation of every message subdocument of a document being saved;
the first failure aborts the save. -/
def validateMessages : List Message → Except String (List Message)
  | [] => Except.ok []
  | m :: rest =>
      match validateStoredMessage m with
      | Except.error e => Except.error e
      | Except.ok m2 =>
          match validateMessages rest with
          | Except.error e => Except.error e
          | Except.ok rest2 => Except.ok (m2 :: rest2)

/-- The ticket document as `createTicket` constructs it, before any
save: exactly the keys its object literal sets.  The schema-required
`subject` and `description` are never among them, and the initial
message is a push (text under `content`). -/
structure TicketDraft where
  order : Nat
  user : Nat
  subject : Option String
  description : Option String
  status : Status
  messages : List MessagePush
  paymentDetails : Option PaymentDetails
deriving DecidableEq, Repr

/-- The draft `createTicket` builds: status Open, one initial message by
the requester (text falling back to the default per
`initialMessage || 'New ticket created'`, written under `content`), the
hard-coded `paymentDetails`, and no `subject`/`description`. -/
def buildTicketDraft (orderId reqUser : Nat)
    (initialMessage : Option String) : TicketDraft :=
  let msgText := match initialMessage with
    | some s => if s == "" then "New ticket created" else s
    | none => "New ticket created"
  { order := orderId, user := reqUser,
    subject := none, description := none,
    status := Status.Open,
    messages := [{ sender := some reqUser, content := msgText,
                   isSystemMessage := false }],
    paymentDetails := some { d17 := "21572385",
                             boustaRIB := "5359401743124212" } }

/-- Validation of a list of pushed message subdocuments: each is cast
onto the schema paths and checked for the required fields; the first
failure aborts. -/
def validatePushes : List MessagePush → Except String (List Message)
  | [] => Except.ok []
  | p :: rest =>
      match validateMessage (castMessagePush p) with
      | Except.error e => Except.error e
      | Except.ok m =>
          match validatePushes rest with
          | Except.error e => Except.error e
          | Except.ok ms => Except.ok (m :: ms)

/-- `document.save()` on a freshly constructed ticket: required-path
validation (`subject`, `description`, and each message subdocument
after strict casting) runs before the pre('save') hooks; a failure
throws a ValidationError and nothing is persisted, otherwise the hook
runs (schema defaults applied) and the stored ticket is returned. -/
def saveTicketDraft (now : Nat) (d : TicketDraft) : Except String Ticket :=
  if d.subject.isNone || d.description.isNone then
    Except.error "ValidationError"
  else
    match validatePushes d.messages with
    | Except.error e => Except.error e
    | Except.ok msgs =>
        Except.ok (preSaveHook now
          { order := d.order, user := d.user, status := d.status,
            priority := Priority.Medium, messages := msgs,
            assignedStaff := none, closedAt := none,
            paymentDetails := d.paymentDetails, resolutionTime := none,
            createdAt := now })

/-- Outcome of a ticket controller call: the ticket state left in the
store (the input state whenever the save threw or never ran) and the
HTTP response channel. -/
structure TicketOpOutcome where
  stored : Ticket
  response : Except Nat Ticket
deriving DecidableEq, Repr

/-- `ticket.save()` on a mutated stored document, followed by the
controller's call to a `NotificationService` method that does not
exist (`notifyTicketStatusUpdate` in `updateTicketStatus`,
`notifyTicketEscalation` in `escalateTicket`).  A validation failure
aborts the save (400, nothing persisted); on success the hook result
is persisted, but the ensuing TypeError is caught and also answered
400 — the write has already happened. -/
def saveThenNotifyMissing (now : Nat) (orig mutated : Ticket) :
    TicketOpOutcome :=
  match validateMessages mutated.messages with
  | Except.error _ => { stored := orig, response := Except.error 400 }
  | Except.ok _ =>
      { stored := preSaveHook now mutated, response := Except.error 400 }

/-- `createTicket` from `src/controllers/notificationController.js`:
verifies the order exists and belongs to the requester (404
otherwise), then builds the draft and attempts the save.  The draft
never carries the required `subject`/`description` and its message
text sits under `content`, so the save always throws a
ValidationError, which the controller catches and answers 400: no
ticket is ever persisted.  (On the unreachable success path the
controller would call `notifyTicketCreation` — which exists — and
answer 201.) -/
def createTicket (orders : List OrderRec) (reqUser : Nat) (orderId : Nat)
    (initialMessage : Option String) (now : Nat) : Except Nat Ticket :=
  match orders.find? (fun o => o.id == orderId) with
  | none => Except.error 404
  | some existingOrder =>
    if existingOrder.user != reqUser then Except.error 404
    else
      match saveTicketDraft now
          (buildTicketDraft existingOrder.id reqUser initialMessage) with
      | Except.error _ => Except.error 400
      | Except.ok t => Except.ok t

/-- `addTicketMessage` from `src/controllers/notificationController.js`:
requires the requester to be the owner or an admin (403 otherwise),
pushes `{ sender, content }`, flips a Closed ticket to In Progress in
memory, and saves.  The pushed subdocument loses `content` to the
strict cast and so lacks the required `message`: the save always
throws, the controller answers 400, and the stored ticket is
unchanged — the reopen never persists.  (The success path, unreachable,
would run the hook, persist, call `notifyTicketUpdate` — which
exists — and answer 200.) -/
def addTicketMessage (t : Ticket) (actor : Actor) (content : String)
    (now : Nat) : TicketOpOutcome :=
  if t.user != actor.id && !actor.isAdmin then
    { stored := t, response := Except.error 403 }
  else
    match validateMessage (castMessagePush
        { sender := some actor.id, content := content,
          isSystemMessage := false }) with
    | Except.error _ => { stored := t, response := Except.error 400 }
    | Except.ok m =>
        let t1 := { t with messages := t.messages ++ [m] }
        let t2 := if t1.status == Status.Closed then
            { t1 with status := Status.InProgress }
          else t1
        match validateMessages t2.messages with
        | Except.error _ => { stored := t, response := Except.error 400 }
        | Except.ok _ =>
            let saved := preSaveHook now t2
            { stored := saved, response := Except.ok saved }

/-- The `validStatuses` list of `updateTicketStatus`. -/
def validStatuses : List String := ["Open", "In Progress", "Resolved", "Closed"]

/-- Reading one of the four status strings back into the enum. -/
def parseStatus : String → Option Status
  | "Open" => some Status.Open
  | "In Progress" => some Status.InProgress
  | "Resolved" => some Status.Resolved
  | "Closed" => some Status.Closed
  | _ => none

/-- The condition under which `updateTicketStatus` reaches its save:
when a staff id is supplied and the requester is an admin, the staff
user must resolve (otherwise the controller answers 404 before
saving). -/
def staffLookupOk (users : List UserRec) (actor : Actor)
    (staff : Option Nat) : Bool :=
  match staff with
  | some sid =>
      if actor.isAdmin then (users.find? (fun u => u.id == sid)).isSome
      else true
  | none => true

/-- `updateTicketStatus` from `src/controllers/notificationController.js`:
rejects a truthy status string outside `validStatuses` with 400, sets
`ticket.status = status || ticket.status`, then — only when a staff id
is supplied and the requester is an admin — resolves the staff user
(404 when absent) and assigns it, and saves.  The save of the mutated
stored document succeeds (no new subdocument is pushed here) and the
hook result is persisted; the controller then calls
`NotificationService.notifyTicketStatusUpdate`, which does not exist,
so the TypeError is caught and the response is 400 even though the
write happened.  Note `closedAt` is never touched here. -/
def updateTicketStatus (users : List UserRec) (t : Ticket) (actor : Actor)
    (status : Option String) (assignedStaff : Option Nat) (now : Nat) :
    TicketOpOutcome :=
  let sTruthy := match status with
    | some s => s != ""
    | none => false
  if sTruthy && !(validStatuses.contains (status.getD "")) then
    { stored := t, response := Except.error 400 }
  else
    let t1 := if sTruthy then
        { t with status := (parseStatus (status.getD "")).getD t.status }
      else t
    match assignedStaff with
    | some sid =>
        if actor.isAdmin then
          match users.find? (fun u => u.id == sid) with
          | none => { stored := t, response := Except.error 404 }
          | some _ => saveThenNotifyMissing now t
              { t1 with assignedStaff := some sid }
        else saveThenNotifyMissing now t t1
    | none => saveThenNotifyMissing now t t1

/-- The escalation note as `escalateTicket` pushes it:
`{ sender: null, content, isSystemMessage: true }` — `sender` violates
its required constraint and the text sits under the non-schema
`content`, so this push can never validate. -/
def escalationNotePush : MessagePush :=
  { sender := none,
    content := "Ticket automatically escalated due to prolonged open status",
    isSystemMessage := true }

/-- The escalation guard of `escalateTicket`:
`ticketAge > twentyFourHours && ticket.status === 'Open'` where
`ticketAge = currentTime - ticket.createdAt` and `twentyFourHours`
is 24 hours in milliseconds. -/
def escalateCond (t : Ticket) (now : Nat) : Bool :=
  decide (now - t.createdAt > 24 * 60 * 60 * 1000)
    && t.status == Status.Open

/-- The `User.findOne({ role: 'Senior Support', isActive: true })`
lookup of `escalateTicket`: first matching user. -/
def findSeniorSupport (users : List UserRec) : Option UserRec :=
  users.find? (fun u => u.role == "Senior Support" && u.isActive)

/-- `escalateTicket` from `src/controllers/notificationController.js`:
when the ticket is older than 24 hours and still Open, it sets
priority High and status In Progress, assigns the first active
"Senior Support" user when one exists, and pushes the system note —
whose validation failure makes the save throw, so the controller
answers 400 and nothing persists.  When the guard does not fire, the
unmutated stored document saves fine (the hook, already applied at the
last save, changes nothing on a stored state), but the controller then
calls `NotificationService.notifyTicketEscalation`, which does not
exist: the TypeError is caught and the response is 400 as well. -/
def escalateTicket (users : List UserRec) (t : Ticket) (now : Nat) :
    TicketOpOutcome :=
  if escalateCond t now then
    let ta := { t with priority := Priority.High,
                       status := Status.InProgress }
    let tb := match findSeniorSupport users with
      | some u => { ta with assignedStaff := some u.id }
      | none => ta
    match validateMessage (castMessagePush escalationNotePush) with
    | Except.error _ => { stored := t, response := Except.error 400 }
    | Except.ok m =>
        saveThenNotifyMissing now t { tb with messages := tb.messages ++ [m] }
  else
    saveThenNotifyMissing now t t

/-- A ticket on which the pre-save hook makes no change: neither the
auto-close nor the urgent-escalation guard fires.  Every ticket state
that has already been through a save satisfies this. -/
def hookStable (t : Ticket) : Bool :=
  !(autoCloseCheck t) && !(urgentCheck t)

/-- The event payload handed to `NotificationService.sendNotification`
(target user, ticket reference, type string, rendered message). -/
structure NotifData where
  user : Nat
  ticket : Nat
  type : String
  message : String
deriving DecidableEq, Repr

/-- A notification document (`src/models/Notification.js`); `isRead`
defaults to `false`. -/
structure Notif where
  user : Nat
  ticket : Nat
  type : String
  message : String
  isRead : Bool
deriving DecidableEq, Repr

/-- `NotificationSchema.statics.createNotification`: `this.create(data)`,
wrapping a persistence failure into
`Failed to create notification: ...`.  The possibility of the
underlying write failing is an explicit oracle `persistFails`. -/
def createNotification (db : List Notif) (data : NotifData)
    (persistFails : Bool) : Except String (List Notif × Notif) :=
  if persistFails then
    Except.error "Failed to create notification: database error"
  else
    let n : Notif := { user := data.user, ticket := data.ticket,
                       type := data.type, message := data.message,
                       isRead := false }
    Except.ok (db ++ [n], n)

/-- The socket registry `this.userSockets` of
`src/services/webSocketService.js`: user id (stringified) to live
socket handle, modelled as an association list. -/
def Registry := List (String × Nat)

/-- `WebSocketService.broadcastNotification`: look the user up in
`userSockets` and emit `new_notification` on their socket when present;
return the (unchanged) registry together with the list of emits
performed. -/
def broadcastNotification (registry : List (String × Nat)) (userId : String)
    (notification : Notif) :
    (List (String × Nat)) × List (Nat × String × Notif) :=
  match registry.find? (fun e => e.1 == userId) with
  | some e => (registry, [(e.2, "new_notification", notification)])
  | none => (registry, [])

/-- `NotificationService.createInAppNotification`: persist via
`Notification.createNotification`, then broadcast over the socket
registry; any failure is logged
(`Error creating in-app notification: ...`) and rethrown.  A throw
inside the broadcast step is the oracle `pushThrows`.  Returns the
notification store after the call, the logged lines, and the outcome. -/
def createInAppNotification (db : List Notif) (data : NotifData)
    (persistFails pushThrows : Bool) :
    List Notif × List String × Except String Notif :=
  match createNotification db data persistFails with
  | Except.error e =>
      (db, ["Error creating in-app notification: " ++ e], Except.error e)
  | Except.ok (db2, n) =>
      if pushThrows then
        (db2, ["Error creating in-app notification: push failed"],
         Except.error "push failed")
      else
        (db2, [], Except.ok n)

/-- `NotificationService.sendEmailNotification`: attempts the email send
and catches any failure, logging
`Error sending email notification: ...`; it never throws.  Returns the
logged lines. -/
def sendEmailNotification (emailFails : Bool) : List String :=
  if emailFails then ["Error sending email notification: email error"]
  else []

/-- Result of a `NotificationService.sendNotification` call: the
notification store afterwards, the JS return value (`none` when the
function fell through its catch clause and returned `undefined`), and
the `console.error` lines. -/
structure DispatchResult where
  db : List Notif
  returned : Option Notif
  logs : List String
deriving DecidableEq, Repr

/-- `NotificationService.sendNotification`: a `try` block running
`createInAppNotification` then `sendEmailNotification`, with a `catch`
that logs `Error sending notification: ...` and returns nothing.  The
`Except` in the result type is the function's exception channel towards
its caller; the catch-all clause means every path ends in `Except.ok`. -/
def sendNotification (db : List Notif) (data : NotifData)
    (persistFails pushThrows emailFails : Bool) :
    Except String DispatchResult :=
  match createInAppNotification db data persistFails pushThrows with
  | (db2, lgs, Except.error e) =>
      Except.ok { db := db2, returned := none,
                  logs := lgs ++ ["Error sending notification: " ++ e] }
  | (db2, lgs, Except.ok n) =>
      let emailLogs := sendEmailNotification emailFails
      Except.ok { db := db2, returned := some n, logs := lgs ++ emailLogs }

/-- A notification document as `markNotificationAsRead` sees it: the
schema field `isRead`, plus the field `read` that the controller's
update object (`{ read: true }`) actually writes. -/
structure NotifDoc where
  id : Nat
  user : Nat
  isRead : Bool
  read : Bool
deriving DecidableEq, Repr

/-- `Notification.findOneAndUpdate({ _id: id, user: reqUser },
{ read: true }, { new: true })`: find the first document matching both
conditions, apply the update, and return the updated document together
with the updated store; `none` when no document matches. -/
def findOneAndUpdateRead : List NotifDoc → Nat → Nat →
    Option (NotifDoc × List NotifDoc)
  | [], _, _ => none
  | d :: rest, nid, reqUser =>
      if d.id == nid && d.user == reqUser then
        let d2 := { d with read := true }
        some (d2, d2 :: rest)
      else
        match findOneAndUpdateRead rest nid reqUser with
        | some (x, l) => some (x, d :: l)
        | none => none

/-- `markNotificationAsRead` from
`src/controllers/notificationController.js`: update the notification
matching both the id and the requesting user; respond 404 when none
matches, 200 otherwise.  Returns the HTTP status and the notification
store after the call. -/
def markNotificationAsRead (db : List NotifDoc) (nid reqUser : Nat) :
    Nat × List NotifDoc :=
  match findOneAndUpdateRead db nid reqUser with
  | none => (404, db)
  | some (_, db2) => (200, db2)

/-! ## Concrete sample data and result extractors -/

/-- A stored, schema-valid user-authored message: text under the
schema's `message` path, `isAdmin` at its default `false`. -/
def mkMsg (sender : Nat) (text : String) : Message :=
  { sender := some sender, message := text, isAdmin := false,
    isSystemMessage := false }

/-- A concrete ticket: one admin-authored reply, still Open (a state a
ticket document holds just before a save runs the hook). -/
def demoAdminReplied : Ticket :=
  { order := 1, user := 1, status := Status.Open,
    priority := Priority.Medium,
    messages := [{ sender := some 2, message := "resolved it",
                   isAdmin := true, isSystemMessage := false }],
    assignedStaff := none, closedAt := none, paymentDetails := none,
    resolutionTime := none, createdAt := 0 }

/-- A concrete valid stored ticket: Open, default Medium priority, one
owner message.  (Such documents enter the store through the websocket
`create_ticket` channel, whose client payload can satisfy the schema;
the REST `createTicket` itself never persists anything.) -/
def demoOpenHello : Ticket :=
  { order := 1, user := 1, status := Status.Open,
    priority := Priority.Medium, messages := [mkMsg 1 "hello"],
    assignedStaff := none, closedAt := none, paymentDetails := none,
    resolutionTime := none, createdAt := 0 }

/-- The state `updateTicketStatus` persists when an admin sets
`demoOpenHello` to Closed (the response is still 400, but the write
has happened; note `closedAt` stays `none`). -/
def demoAdminClosed : Ticket :=
  { demoOpenHello with status := Status.Closed }

/-- A concrete not-yet-saved ticket state carrying an urgent keyword in
its message while still at priority Medium. -/
def demoOpenUrgentMedium : Ticket :=
  { order := 1, user := 1, status := Status.Open,
    priority := Priority.Medium,
    messages := [mkMsg 1 "URGENT need refund"],
    assignedStaff := none, closedAt := none, paymentDetails := none,
    resolutionTime := none, createdAt := 0 }

/-- The Notification record `createNotification` persists for a given
dispatch payload (`isRead` defaulting to false). -/
def mkNotif (data : NotifData) : Notif :=
  { user := data.user, ticket := data.ticket, type := data.type,
    message := data.message, isRead := false }

/-- The notification store after a dispatch call (`none` when the call
raised, which `sendNotification` never does). -/
def dispatchStore : Except String DispatchResult → Option (List Notif)
  | Except.ok r => some r.db
  | Except.error _ => none

/-- A concrete notification payload. -/
def demoNotif : Notif :=
  { user := 1, ticket := 1, type := "TICKET_CREATED",
    message := "You have a ticket notification.", isRead := false }

/-! ## General lemmas about the pre-save hook -/

theorem preSaveHook_messages (now : Nat) (t : Ticket) :
    (preSaveHook now t).messages = t.messages := by
  unfold preSaveHook
  cases hb1 : autoCloseCheck t <;>
    simp only [hb1, if_true, if_false, Bool.false_eq_true] <;>
    split <;> rfl

theorem preSaveHook_status (now : Nat) (t : Ticket) :
    (preSaveHook now t).status =
      if autoCloseCheck t then Status.Closed else t.status := by
  unfold preSaveHook
  cases hb1 : autoCloseCheck t <;>
    simp only [hb1, if_true, if_false, Bool.false_eq_true] <;>
    split <;> rfl

theorem preSaveHook_closedAt (now : Nat) (t : Ticket) :
    (preSaveHook now t).closedAt =
      if autoCloseCheck t then some now else t.closedAt := by
  unfold preSaveHook
  cases hb1 : autoCloseCheck t <;>
    simp only [hb1, if_true, if_false, Bool.false_eq_true] <;>
    split <;> rfl

theorem preSaveHook_resolutionTime (now : Nat) (t : Ticket) :
    (preSaveHook now t).resolutionTime =
      if autoCloseCheck t then some now else t.resolutionTime := by
  unfold preSaveHook
  cases hb1 : autoCloseCheck t <;>
    simp only [hb1, if_true, if_false, Bool.false_eq_true] <;>
    split <;> rfl

theorem preSaveHook_user (now : Nat) (t : Ticket) :
    (preSaveHook now t).user = t.user := by
  unfold preSaveHook
  cases hb1 : autoCloseCheck t <;>
    simp only [hb1, if_true, if_false, Bool.false_eq_true] <;>
    split <;> rfl

theorem preSaveHook_order (now : Nat) (t : Ticket) :
    (preSaveHook now t).order = t.order := by
  unfold preSaveHook
  cases hb1 : autoCloseCheck t <;>
    simp only [hb1, if_true, if_false, Bool.false_eq_true] <;>
    split <;> rfl

theorem preSaveHook_assignedStaff (now : Nat) (t : Ticket) :
    (preSaveHook now t).assignedStaff = t.assignedStaff := by
  unfold preSaveHook
  cases hb1 : autoCloseCheck t <;>
    simp only [hb1, if_true, if_false, Bool.false_eq_true] <;>
    split <;> rfl

theorem preSaveHook_paymentDetails (now : Nat) (t : Ticket) :
    (preSaveHook now t).paymentDetails = t.paymentDetails := by
  unfold preSaveHook
  cases hb1 : autoCloseCheck t <;>
    simp only [hb1, if_true, if_false, Bool.false_eq_true] <;>
    split <;> rfl

theorem preSaveHook_createdAt (now : Nat) (t : Ticket) :
    (preSaveHook now t).createdAt = t.createdAt := by
  unfold preSaveHook
  cases hb1 : autoCloseCheck t <;>
    simp only [hb1, if_true, if_false, Bool.false_eq_true] <;>
    split <;> rfl

theorem preSaveHook_priority (now : Nat) (t : Ticket) :
    (preSaveHook now t).priority =
      if urgentCheck t then Priority.Urgent else t.priority := by
  unfold preSaveHook
  cases hb1 : autoCloseCheck t
  · simp only [Bool.false_eq_true, if_false]
    split <;> rfl
  · simp only [if_true]
    have e : urgentCheck ({ t with status := Status.Closed, closedAt := some now, resolutionTime := some now }) = urgentCheck t := rfl
    rw [e]
    split <;> rfl

theorem priorityRank_le_three (p : Priority) : priorityRank p ≤ 3 := by
  cases p <;> simp [priorityRank]

theorem urgentCheck_eq_false_of_no_urgent (t : Ticket)
    (h : hasUrgentMessage t = false) : urgentCheck t = false := by
  unfold urgentCheck
  have : decide ((t.messages.filter isUrgentMessage).length > 0) = false := by
    rw [decide_eq_false_iff_not]
    intro hpos
    have := (filter_urgent_pos_iff t.messages) ▸ hpos
    unfold hasUrgentMessage at h
    rw [h] at this
    exact absurd this (by simp)
  rw [this]
  rfl

/-! ## Claim theorems -/

theorem autoCloseCheck_true_of (t : Ticket)
    (h1 : t.messages ≠ [])
    (h2 : ∀ m ∈ t.messages, m.isAdmin = true)
    (h3 : t.status ≠ Status.Closed) : autoCloseCheck t = true := by
  unfold autoCloseCheck
  have hlen : decide (t.messages.length > 0) = true :=
    decide_eq_true (List.length_pos.mpr h1)
  have hall : t.messages.all (fun m => m.isAdmin) = true :=
    List.all_eq_true.mpr (fun m hm => h2 m hm)
  have hbeq : (t.status == Status.Closed) = false := by
    simp only [beq_eq_false_iff_ne, ne_eq]; exact h3
  rw [hlen, hall, hbeq]
  rfl

/-- C2: a ticket with a non-empty message list in which every message is
admin-authored, and whose status is not Closed, is transitioned to
Closed with `closedAt` set to the current time by the save step
(the pre-save hook), regardless of which operation or actor triggered
the save. -/
theorem autoclose_all_admin_messages (t : Ticket) (now : Nat)
    (h1 : t.messages ≠ [])
    (h2 : ∀ m ∈ t.messages, m.isAdmin = true)
    (h3 : t.status ≠ Status.Closed) :
    (preSaveHook now t).status = Status.Closed ∧
    (preSaveHook now t).closedAt = some now := by
  have hc := autoCloseCheck_true_of t h1 h2 h3
  rw [preSaveHook_status, preSaveHook_closedAt, hc]
  exact ⟨rfl, rfl⟩

/-- C2 witness: the auto-close theorem applied to a concrete ticket with
a single admin-authored message. -/
theorem autoclose_all_admin_messages_witness :
    (preSaveHook 77 demoAdminReplied).status = Status.Closed ∧
    (preSaveHook 77 demoAdminReplied).closedAt = some 77 :=
  autoclose_all_admin_messages demoAdminReplied 77 (by decide)
    (by decide) (by decide)

/-- C3: the urgent-keyword rule of the save step never lowers a
ticket's priority, and whenever some message case-insensitively
contains "urgent" or "emergency", the saved ticket's priority is
Urgent (so in particular a ticket already at Urgent stays there). -/
theorem urgent_keyword_escalates_priority (t : Ticket) (now : Nat) :
    priorityRank t.priority ≤ priorityRank (preSaveHook now t).priority ∧
    (hasUrgentMessage t = true →
      (preSaveHook now t).priority = Priority.Urgent) := by
  rw [preSaveHook_priority]
  cases hu : urgentCheck t
  · simp only [if_false, Bool.false_eq_true]
    refine ⟨Nat.le_refl _, fun hmsg => ?_⟩
    -- with an urgent message present, a false guard forces priority
    -- to already be Urgent
    unfold urgentCheck at hu
    have hd : decide ((t.messages.filter isUrgentMessage).length > 0)
        = true := by
      rw [decide_eq_true_eq, filter_urgent_pos_iff]
      unfold hasUrgentMessage at hmsg
      exact hmsg
    rw [hd, Bool.true_and, Bool.not_eq_false', beq_iff_eq] at hu
    exact hu
  · simp only [if_true]
    exact ⟨priorityRank_le_three _, fun _ => trivial⟩

/-- C3 witness: the urgent-keyword theorem applied to a concrete Open
ticket whose message says "URGENT need refund" (here at priority
Medium, before the save). -/
theorem urgent_keyword_escalates_priority_witness :
    (preSaveHook 5 demoOpenUrgentMedium).priority = Priority.Urgent :=
  (urgent_keyword_escalates_priority demoOpenUrgentMedium 5).2 (by decide)

theorem autoCloseCheck_false_of_closed (t : Ticket)
    (h : t.status = Status.Closed) : autoCloseCheck t = false := by
  unfold autoCloseCheck
  rw [h]
  simp

theorem autoCloseCheck_false_of_nonadmin (t : Ticket) (m : Message)
    (hm : m ∈ t.messages) (hadm : m.isAdmin = false) :
    autoCloseCheck t = false := by
  unfold autoCloseCheck
  have : t.messages.all (fun m => m.isAdmin) = false := by
    rw [Bool.eq_false_iff]
    intro hall
    have := List.all_eq_true.mp hall m hm
    rw [hadm] at this
    exact absurd this (by simp)
  rw [this]
  simp

theorem validate_cast_push_fails (p : MessagePush) :
    validateMessage (castMessagePush p) = Except.error "ValidationError" := by
  unfold validateMessage castMessagePush
  cases p.sender <;> rfl

theorem validateMessages_ok (l : List Message)
    (h : ∀ m ∈ l, m.sender.isSome = true) :
    validateMessages l = Except.ok l := by
  induction l with
  | nil => rfl
  | cons m rest ih =>
      unfold validateMessages
      obtain ⟨s, hs⟩ := Option.isSome_iff_exists.mp (h m (by simp))
      have hm : validateStoredMessage m = Except.ok m := by
        unfold validateStoredMessage
        rw [hs]
      rw [hm, ih (fun x hx => h x (by simp [hx]))]

/-- Lemma: `addTicketMessage` can never persist anything: an
authorization failure answers 403, and otherwise the pushed
subdocument fails validation (no `message` path survives the cast),
answering 400 with the stored ticket untouched. -/
theorem addTicketMessage_never_persists (t : Ticket) (a : Actor)
    (content : String) (now : Nat) :
    (addTicketMessage t a content now).stored = t ∧
    ((addTicketMessage t a content now).response = Except.error 403 ∨
     (addTicketMessage t a content now).response = Except.error 400) := by
  unfold addTicketMessage
  cases hg : (t.user != a.id && !a.isAdmin)
  · simp only [Bool.false_eq_true, if_false, validate_cast_push_fails]
    exact ⟨trivial, Or.inr trivial⟩
  · simp only [if_true]
    exact ⟨trivial, Or.inl trivial⟩

/-- Lemma: `escalateTicket` always answers 400, and when the
escalation guard fires nothing is persisted: the pushed system note
fails validation before the save can proceed. -/
theorem escalateTicket_always_400 (users : List UserRec) (t : Ticket)
    (now : Nat) :
    (escalateTicket users t now).response = Except.error 400 ∧
    (escalateCond t now = true → (escalateTicket users t now).stored = t) := by
  unfold escalateTicket
  cases hc : escalateCond t now
  · simp only [Bool.false_eq_true, if_false]
    refine ⟨?_, fun hcon => absurd hcon (by decide)⟩
    unfold saveThenNotifyMissing
    cases hv : validateMessages t.messages <;> rfl
  · simp only [if_true, validate_cast_push_fails]
    exact ⟨trivial, fun _ => trivial⟩

/-- Lemma: `createTicket` never succeeds: 404 when the order is absent
or foreign, otherwise the draft fails the save's validation and the
call answers 400. -/
theorem createTicket_never_ok (orders : List OrderRec)
    (reqUser orderId : Nat) (im : Option String) (now : Nat) :
    createTicket orders reqUser orderId im now = Except.error 404 ∨
    createTicket orders reqUser orderId im now = Except.error 400 := by
  cases hf : orders.find? (fun o => o.id == orderId) with
  | none =>
      left
      unfold createTicket
      rw [hf]
  | some o =>
      have hred : createTicket orders reqUser orderId im now
          = (if (o.user != reqUser) = true then Except.error 404
             else Except.error 400) := by
        unfold createTicket
        rw [hf]
        rfl
      rw [hred]
      by_cases ho : (o.user != reqUser) = true
      · rw [if_pos ho]
        exact Or.inl rfl
      · rw [if_neg ho]
        exact Or.inr rfl

/-- C1 counterexample: an admin sets status Closed on the stored Open
ticket `demoOpenHello` through `updateTicketStatus`.  The write is
persisted (only the response is 400, the notification call failing
after the save), and the persisted ticket is Closed with `closedAt`
still `none` — refuting the claimed invariant, and in particular the
claim that closing through `updateTicketStatus` sets `closedAt`. -/
theorem admin_close_leaves_closedAt_unset :
    (updateTicketStatus [] demoOpenHello { id := 2, isAdmin := true }
      (some "Closed") none 1000).stored.status = Status.Closed ∧
    (updateTicketStatus [] demoOpenHello { id := 2, isAdmin := true }
      (some "Closed") none 1000).stored.closedAt = none := by decide

/-- C1 amended: whenever `updateTicketStatus` with status "Closed"
reaches its save (stored messages valid; the staff lookup, when an
admin requests one, succeeding), the persisted ticket is Closed but
`closedAt` is unchanged — the hook's auto-close cannot fire on an
already-Closed document, and nothing else sets `closedAt` — so the
invariant holds only for auto-closed tickets; the response is moreover
400 (`notifyTicketStatusUpdate` does not exist) although the write has
happened. -/
theorem updateTicketStatus_closed_keeps_closedAt (users : List UserRec)
    (t : Ticket) (actor : Actor) (staff : Option Nat) (now : Nat)
    (hval : ∀ m ∈ t.messages, m.sender.isSome = true)
    (hstaff : staffLookupOk users actor staff = true) :
    (updateTicketStatus users t actor (some "Closed") staff now).stored.status
      = Status.Closed ∧
    (updateTicketStatus users t actor (some "Closed") staff now).stored.closedAt
      = t.closedAt ∧
    (updateTicketStatus users t actor (some "Closed") staff now).response
      = Except.error 400 := by
  have hsave : ∀ mutated : Ticket, mutated.messages = t.messages →
      saveThenNotifyMissing now t mutated
        = { stored := preSaveHook now mutated,
            response := Except.error 400 } := by
    intro m hm
    unfold saveThenNotifyMissing
    rw [hm, validateMessages_ok t.messages hval]
  cases staff with
  | none =>
      have hred : updateTicketStatus users t actor (some "Closed") none now
          = saveThenNotifyMissing now t ({ t with status := Status.Closed }) := rfl
      rw [hred, hsave ({ t with status := Status.Closed }) rfl]
      refine ⟨?_, ?_, rfl⟩
      · show (preSaveHook now ({ t with status := Status.Closed })).status = Status.Closed
        rw [preSaveHook_status, autoCloseCheck_false_of_closed _ rfl]
        exact rfl
      · show (preSaveHook now ({ t with status := Status.Closed })).closedAt = t.closedAt
        rw [preSaveHook_closedAt, autoCloseCheck_false_of_closed _ rfl]
        exact rfl
  | some sid =>
      have hred : updateTicketStatus users t actor (some "Closed") (some sid) now
          = (if actor.isAdmin then
               match users.find? (fun u => u.id == sid) with
               | none => { stored := t, response := Except.error 404 }
               | some _ => saveThenNotifyMissing now t
                   ({ t with status := Status.Closed, assignedStaff := some sid })
             else saveThenNotifyMissing now t
               ({ t with status := Status.Closed })) := rfl
      by_cases hadm : actor.isAdmin = true
      · have hfind : (users.find? (fun u => u.id == sid)).isSome = true := by
          simp only [staffLookupOk] at hstaff
          rw [if_pos hadm] at hstaff
          exact hstaff
        obtain ⟨u, hu⟩ := Option.isSome_iff_exists.mp hfind
        rw [hred, if_pos hadm]
        simp only [hu]
        rw [hsave ({ t with status := Status.Closed, assignedStaff := some sid }) rfl]
        refine ⟨?_, ?_, rfl⟩
        · show (preSaveHook now ({ t with status := Status.Closed, assignedStaff := some sid })).status = Status.Closed
          rw [preSaveHook_status, autoCloseCheck_false_of_closed _ rfl]
          exact rfl
        · show (preSaveHook now ({ t with status := Status.Closed, assignedStaff := some sid })).closedAt = t.closedAt
          rw [preSaveHook_closedAt, autoCloseCheck_false_of_closed _ rfl]
          exact rfl
      · rw [hred, if_neg hadm,
          hsave ({ t with status := Status.Closed }) rfl]
        refine ⟨?_, ?_, rfl⟩
        · show (preSaveHook now ({ t with status := Status.Closed })).status = Status.Closed
          rw [preSaveHook_status, autoCloseCheck_false_of_closed _ rfl]
          exact rfl
        · show (preSaveHook now ({ t with status := Status.Closed })).closedAt = t.closedAt
          rw [preSaveHook_closedAt, autoCloseCheck_false_of_closed _ rfl]
          exact rfl

/-- C1 amended witness: the amended theorem applied to the concrete
admin-close run on `demoOpenHello`. -/
theorem updateTicketStatus_closed_keeps_closedAt_witness :
    (updateTicketStatus [] demoOpenHello { id := 2, isAdmin := true }
      (some "Closed") none 1000).stored.status = Status.Closed ∧
    (updateTicketStatus [] demoOpenHello { id := 2, isAdmin := true }
      (some "Closed") none 1000).stored.closedAt = demoOpenHello.closedAt ∧
    (updateTicketStatus [] demoOpenHello { id := 2, isAdmin := true }
      (some "Closed") none 1000).response = Except.error 400 :=
  updateTicketStatus_closed_keeps_closedAt [] demoOpenHello
    { id := 2, isAdmin := true } none 1000 (by decide) (by decide)

/-- C4: the reopen-on-reply the claim describes never executes.  At
the concrete stored Closed ticket `demoAdminClosed`, the owner's
append of "thanks" makes the save throw (the pushed `{ sender,
content }` subdocument has no `message` path), the controller answers
400, and the stored ticket — status Closed, stale `closedAt` and
all — is exactly as before: no transition to In Progress happens. -/
theorem append_to_closed_never_persists :
    (addTicketMessage demoAdminClosed { id := 1, isAdmin := false }
      "thanks" 50).stored = demoAdminClosed ∧
    (addTicketMessage demoAdminClosed { id := 1, isAdmin := false }
      "thanks" 50).response = Except.error 400 ∧
    demoAdminClosed.status = Status.Closed := by decide

theorem filter_urgent_pos_bool (l : List Message) :
    decide ((l.filter isUrgentMessage).length > 0) = l.any isUrgentMessage := by
  cases hany : l.any isUrgentMessage
  · apply decide_eq_false
    rw [filter_urgent_pos_iff, hany]
    simp
  · apply decide_eq_true
    rw [filter_urgent_pos_iff]
    exact hany

theorem preSaveHook_eq_self_of_stable (now : Nat) (t : Ticket)
    (h : hookStable t = true) : preSaveHook now t = t := by
  unfold hookStable at h
  rw [Bool.and_eq_true] at h
  obtain ⟨h1, h2⟩ := h
  rw [Bool.not_eq_true'] at h1 h2
  unfold preSaveHook
  rw [h1]
  simp only [Bool.false_eq_true, if_false]
  rw [h2]
  simp

/-- Every ticket state that has just been saved is stable under the
hook: a second run of the pre-save hook changes nothing.  This is why
every ticket loaded from the store satisfies `hookStable`. -/
theorem preSaveHook_stable (now : Nat) (t : Ticket) :
    hookStable (preSaveHook now t) = true := by
  unfold hookStable
  have hac : autoCloseCheck (preSaveHook now t) = false := by
    unfold autoCloseCheck
    rw [preSaveHook_status]
    rw [preSaveHook_messages]
    cases hb : autoCloseCheck t
    · simp only [Bool.false_eq_true, if_false]
      unfold autoCloseCheck at hb
      exact hb
    · simp
  have huc : urgentCheck (preSaveHook now t) = false := by
    unfold urgentCheck
    rw [preSaveHook_messages, preSaveHook_priority]
    cases hb : urgentCheck t
    · simp only [Bool.false_eq_true, if_false]
      unfold urgentCheck at hb
      exact hb
    · simp
  rw [hac, huc]
  rfl

/-- C5: at the stored Open ticket `demoOpenHello` aged 25 hours the
escalation guard fires, but the save throws on the pushed system note
(`sender: null`, text under `content`, hence no `message` path): the
controller answers 400 and nothing persists — no priority or status
change, no assignment, no note.  On the same ticket fresh (guard not
firing) the ticket is indeed left unchanged, but the call still
answers 400 because `notifyTicketEscalation` does not exist — so an
error is raised even when the conditions are unmet. -/
theorem escalate_never_persists :
    (escalateTicket [] demoOpenHello 90000000).stored = demoOpenHello ∧
    (escalateTicket [] demoOpenHello 90000000).response = Except.error 400 ∧
    escalateCond demoOpenHello 90000000 = true ∧
    (escalateTicket [] demoOpenHello 0).stored = demoOpenHello ∧
    (escalateTicket [] demoOpenHello 0).response = Except.error 400 := by decide

/-- C6: when the persistence step succeeds, one `sendNotification` call
appends exactly one Notification record to the store, whatever the
push and email outcomes (push throwing skips the email attempt but the
record is already persisted). -/
theorem sendNotification_persists_exactly_one (db : List Notif)
    (data : NotifData) (pushThrows emailFails : Bool) :
    dispatchStore (sendNotification db data false pushThrows emailFails)
      = some (db ++ [mkNotif data]) := by
  cases pushThrows <;> cases emailFails <;> rfl

/-- C7 counterexample: with the persistence step failing,
`sendNotification` still returns normally (`Except.ok`, carrying
`undefined`): the persist failure is logged twice — once by
`createInAppNotification`, once by `sendNotification`'s own catch —
but never propagates to the caller of the dispatch. -/
theorem persist_failure_not_propagated :
    sendNotification []
      { user := 1, ticket := 1, type := "TICKET_CREATED", message := "m" }
      true false false
    = Except.ok ⟨[], none,
        ["Error creating in-app notification: Failed to create notification: database error",
         "Error sending notification: Failed to create notification: database error"]⟩ := rfl

/-- C7 amended: `sendNotification` never lets any error reach its
caller.  A persistence failure is caught by its catch clause: logged
(twice), the store left unchanged, and `undefined` returned; an email
failure is caught inside `sendEmailNotification`: logged, with the
record still persisted and returned. -/
theorem sendNotification_never_throws (db : List Notif)
    (data : NotifData) (pushThrows emailFails : Bool) :
    (sendNotification db data true pushThrows emailFails
      = Except.ok ⟨db, none,
          ["Error creating in-app notification: Failed to create notification: database error",
           "Error sending notification: Failed to create notification: database error"]⟩) ∧
    (sendNotification db data false false true
      = Except.ok ⟨db ++ [mkNotif data], some (mkNotif data),
          ["Error sending email notification: email error"]⟩) :=
  ⟨rfl, rfl⟩

/-- C8: `broadcastNotification` for a user id with no entry in the
socket registry is a no-op: it emits nothing and leaves the registry
unchanged (and, as a total function, neither throws nor blocks). -/
theorem broadcast_unregistered_noop (registry : List (String × Nat))
    (userId : String) (n : Notif)
    (h : registry.find? (fun e => e.1 == userId) = none) :
    broadcastNotification registry userId n = (registry, []) := by
  unfold broadcastNotification
  rw [h]

/-- C8 witness: the no-op theorem applied to a one-entry registry and
an unregistered user id. -/
theorem broadcast_unregistered_noop_witness :
    broadcastNotification [("7", 42)] "1" demoNotif = ([("7", 42)], []) :=
  broadcast_unregistered_noop [("7", 42)] "1" demoNotif (by decide)

/-- Lemma: the hard-coded payment details appear in the draft for
every input — they are derived from nothing. -/
theorem buildTicketDraft_payment_constant (orderId reqUser : Nat)
    (im : Option String) :
    (buildTicketDraft orderId reqUser im).paymentDetails
      = some { d17 := "21572385", boustaRIB := "5359401743124212" } := rfl

/-- C9: `createTicket` does write the hard-coded payment details
(`d17 = "21572385"`, `boustaRIB = "5359401743124212"`) into the draft
it builds — for this and every input, derived from nothing — but the
run never produces a created ticket: at this concrete owned order the
save's validation fails (no `subject`/`description`; the message text
under `content` leaves the required `message` unset) and the call
answers 400. -/
theorem createTicket_payment_details_hardcoded :
    (buildTicketDraft 1 1 (some "hello")).paymentDetails
      = some { d17 := "21572385", boustaRIB := "5359401743124212" } ∧
    createTicket [{ id := 1, user := 1 }] 1 1 (some "hello") 0
      = Except.error 400 := by decide

theorem findOneAndUpdateRead_eq_none (db : List NotifDoc)
    (nid reqUser : Nat)
    (hnomatch : ∀ d ∈ db, ¬(d.id = nid ∧ d.user = reqUser)) :
    findOneAndUpdateRead db nid reqUser = none := by
  induction db with
  | nil => rfl
  | cons d rest ih =>
      unfold findOneAndUpdateRead
      have hd := hnomatch d (by simp)
      have hcond : (d.id == nid && d.user == reqUser) = false := by
        by_cases h1 : d.id = nid
        · by_cases h2 : d.user = reqUser
          · exact absurd ⟨h1, h2⟩ hd
          · have h2b : (d.user == reqUser) = false := by
              simp only [beq_eq_false_iff_ne, ne_eq]
              exact h2
            rw [h2b, Bool.and_false]
        · have h1b : (d.id == nid) = false := by
            simp only [beq_eq_false_iff_ne, ne_eq]
            exact h1
          rw [h1b, Bool.false_and]
      rw [hcond]
      simp only [Bool.false_eq_true, if_false]
      rw [ih (fun x hx => hnomatch x (List.mem_cons_of_mem _ hx))]

/-- C10: when the requested notification id belongs to a notification
owned by a different user (ids being unique), `markNotificationAsRead`
answers 404 (NotFound, not Forbidden) and the notification store is
unchanged. -/
theorem markRead_cross_user_not_found (db : List NotifDoc)
    (nid reqUser : Nat) (n : NotifDoc)
    (hmem : n ∈ db) (hid : n.id = nid) (huser : n.user ≠ reqUser)
    (hnodup : (db.map NotifDoc.id).Nodup) :
    markNotificationAsRead db nid reqUser = (404, db) := by
  have hnomatch : ∀ d ∈ db, ¬(d.id = nid ∧ d.user = reqUser) := by
    rintro d hd ⟨hdid, hduser⟩
    have hdn : d = n :=
      List.inj_on_of_nodup_map hnodup hd hmem (by rw [hdid, hid])
    rw [hdn] at hduser
    exact huser hduser
  unfold markNotificationAsRead
  rw [findOneAndUpdateRead_eq_none db nid reqUser hnomatch]

/-- C10 witness: notification 5 belongs to user 2; user 1 asking to
mark it read gets 404 and the store is untouched. -/
theorem markRead_cross_user_not_found_witness :
    markNotificationAsRead
      [{ id := 5, user := 2, isRead := false, read := false }] 5 1
    = (404, [{ id := 5, user := 2, isRead := false, read := false }]) :=
  markRead_cross_user_not_found
    [{ id := 5, user := 2, isRead := false, read := false }] 5 1
    { id := 5, user := 2, isRead := false, read := false }
    (by decide) (by decide) (by decide) (by decide)

end StoreBack
